import Mathlib

/-!
Verification of the Electroplating-of-3d-Printed-materials repository.

Shallow embedding of the three source modules:
* `formulas.py` — `format_time` and `PlatingCalculator.calculate_metrics`;
* `scpi.py` — `PowerSupplyInterface` (`send_command`, `read_data`);
* `gui.py` — `ElectroplatingControllerApp` (parameter edits, `start_process`,
  `on_pause_plating`, `_execute_abort`, `live_monitor`).

Python floats are embedded as exact rationals (`ℚ`); Python `int()` truncation
toward zero is `ratTrunc`.  Fallible Python code (the `try/except` blocks) is
embedded by making the caught condition explicit: the only division by a
non-constant in `calculate_metrics` is `numerator / denominator`, so the
`ZeroDivisionError` handler corresponds to the `denominator = 0` branch.
Device I/O outcomes (PyVISA errors, non-numeric readings) are an explicit
input to each operation.
-/

namespace Electroplating

/-! ### formulas.py -/

/-- Truncation toward zero, the behaviour of Python `int()` on a float. -/
def ratTrunc (q : ℚ) : Int := if q < 0 then ⌈q⌉ else ⌊q⌋

/-- Zero-padded two-digit rendering, Python `f"{n:02d}"` for `n ≥ 0`. -/
def pad2 (n : Nat) : String := if n < 10 then "0" ++ toString n else toString n

/-- `format_time` from formulas.py, on numeric input (Python additionally
returns `"N/A"` for non-numeric input, outside this numeric domain). -/
def format_time (seconds : ℚ) : String :=
  let s := ratTrunc seconds
  if s < 0 then "00:00:00"
  else
    let n := s.toNat
    pad2 (n / 3600) ++ ":" ++ pad2 ((n % 3600) / 60) ++ ":" ++ pad2 (n % 60)

def MOLAR_MASS_G_MOL : ℚ := 150
def DENSITY_G_CM3 : ℚ := 10
def CHARGE_VALENCE : ℚ := 2
def CURRENT_EFFICIENCY : ℚ := 0.95
def F : ℚ := 96485

/-- `PlatingCalculator.CURRENT_DENSITY_MAP`, a dict keyed by the complexity
level; `none` models a missing key. -/
def CURRENT_DENSITY_MAP (k : Int) : Option ℚ :=
  if k = 1 then some 5.0
  else if k = 2 then some 4.0
  else if k = 3 then some 3.0
  else if k = 4 then some 2.5
  else if k = 5 then some 2.0
  else none

/-- Result dict of `calculate_metrics`. -/
structure Metrics where
  target_current_A : ℚ
  target_voltage_V : ℚ
  estimated_time_sec : ℚ
deriving DecidableEq, Repr

/-- `PlatingCalculator.calculate_metrics`.  The `except (ValueError,
ZeroDivisionError, TypeError)` handler fires, on numeric input, exactly when
`numerator / denominator` divides by zero, i.e. when `denominator = 0`;
that branch returns the all-zero dict.  Note the voltage factor is computed
from the raw `complexity_level`, after the division, so it is also lost to
the zero fallback. -/
def calculate_metrics (thickness_um area_cm2 : ℚ) (complexity_level : Int) :
    Metrics :=
  let density_mA_cm2 := (CURRENT_DENSITY_MAP complexity_level).getD
    ((CURRENT_DENSITY_MAP 1).getD 0)
  let target_current_A := density_mA_cm2 / 1000 * area_cm2
  let thickness_cm := thickness_um / 10000
  let volume_cm3 := thickness_cm * area_cm2
  let target_mass_g := volume_cm3 * DENSITY_G_CM3
  let numerator := target_mass_g * CHARGE_VALENCE * F
  let denominator := MOLAR_MASS_G_MOL * target_current_A * CURRENT_EFFICIENCY
  if denominator = 0 then
    { target_current_A := 0, target_voltage_V := 0, estimated_time_sec := 0 }
  else
    let estimated_time_sec := numerator / denominator
    let voltage_factor := 1 + ((complexity_level : ℚ) - 1) * 0.2
    { target_current_A := target_current_A
      target_voltage_V := 2.0 * voltage_factor
      estimated_time_sec := estimated_time_sec }

/-! ### scpi.py — `PowerSupplyInterface`

The PyVISA transport is external hardware: its observable state here is the
pair of flags the class itself keeps (`is_connected`, `output_on`), and the
outcome of each query (a value, a `VisaIOError`, or a non-numeric reading
raising `ValueError`) is an explicit input. -/

structure Psu where
  is_connected : Bool
  output_on : Bool
deriving DecidableEq, Repr

/-- ASCII upper-casing of one character, as Python `str.upper()` does on
the ASCII command strings used here. -/
def charUpper (ch : Char) : Char :=
  if 'a' ≤ ch ∧ ch ≤ 'z' then Char.ofNat (ch.toNat - 32) else ch

/-- Python `str.upper()` on ASCII strings. -/
def pyUpper (s : String) : String := String.mk (s.data.map charUpper)

/-- Python `str.strip()` with no argument: drop leading and trailing
whitespace. -/
def pyStrip (s : String) : String :=
  String.mk
    (((s.data.dropWhile Char.isWhitespace).reverse.dropWhile
        Char.isWhitespace).reverse)

/-- Python `str.startswith`. -/
def pyStartsWith (s pre : String) : Bool := pre.data.isPrefixOf s.data

/-- Python `str.split()` with no argument: split on whitespace runs,
dropping empty pieces. -/
def pySplit (s : String) : List String :=
  ((s.data.splitOnP Char.isWhitespace).map String.mk).filter (fun p => p ≠ "")

def stripSign (l : List Char) : List Char :=
  match l with
  | '+' :: r => r
  | '-' :: r => r
  | r => r

def validMantissa (l : List Char) : Bool :=
  decide (l.count '.' ≤ 1) && !(l.filter Char.isDigit).isEmpty &&
    l.all (fun c => c.isDigit || c = '.')

def validExponent (l : List Char) : Bool :=
  let l := stripSign l
  !l.isEmpty && l.all Char.isDigit

/-- Acceptance of Python `float(token)` for the upper-cased,
whitespace-free tokens produced by `send_command`: an optional sign, then
either one of the special words `INF`/`INFINITY`/`NAN`, or a mantissa made
of digits with at most one dot (and at least one digit), optionally
followed by `E`, an optional sign, and a non-empty digit string. -/
def parsePyFloat (s : String) : Bool :=
  let l := stripSign s.data
  if l = "INF".data || l = "INFINITY".data || l = "NAN".data then true
  else
    match l.splitOn 'E' with
    | [m] => validMantissa m
    | [m, e] => validMantissa m && validExponent e
    | _ => false

/-- `PowerSupplyInterface.send_command`.  Returns the boolean result, the
updated interface state, and the list of raw SCPI writes performed on the
transport (the real code formats the floats into the write strings; only
which writes happen matters here).  The transport itself is modelled as
reliable: a `VisaIOError` raised by `psu.write` would only turn a `true`
result into `false`, never add a write or change the parsing. -/
def send_command (psu : Psu) (command : String) : Bool × Psu × List String :=
  if !psu.is_connected then (false, psu, [])
  else
    let c := pyUpper (pyStrip command)
    if pyStartsWith c "APPLY" then
      match pySplit c with
      | [_, p1, p2] =>
        if parsePyFloat p1 && parsePyFloat p2 then
          (true, psu, ["VOLTage " ++ p1, "CURRent " ++ p2])
        else (false, psu, [])
      | _ => (false, psu, [])
    else if c = "OUTP ON" then
      (true, { psu with output_on := true }, ["OUTPut:STATe ON"])
    else if c = "OUTP OFF" then
      (true, { psu with output_on := false }, ["OUTPut:STATe OFF"])
    else (false, psu, [])

/-- The three command shapes the controller in gui.py actually issues:
`f"APPLY {V} {A}"`, `"OUTP ON"`, `"OUTP OFF"`. -/
inductive Cmd where
  | apply (V A : ℚ)
  | outpOn
  | outpOff
deriving DecidableEq, Repr

/-- `send_command` restricted to the strings gui.py builds.  Python float
formatting of a numeric value always yields a token `float()` accepts, so
`f"APPLY {V} {A}"` always reaches the well-formed `APPLY` branch; `"OUTP
ON"`/`"OUTP OFF"` match their branches exactly. -/
def send_cmd (psu : Psu) : Cmd → Bool × Psu
  | .apply _ _ => if psu.is_connected then (true, psu) else (false, psu)
  | .outpOn =>
    if psu.is_connected then (true, { psu with output_on := true }) else (false, psu)
  | .outpOff =>
    if psu.is_connected then (true, { psu with output_on := false }) else (false, psu)

/-- Outcome of one `psu.query` call: a parsed value, a `VisaIOError`, or a
reading that fails `float()` (`ValueError`). -/
inductive QueryRes where
  | val (x : ℚ)
  | visaErr
  | valueErr
deriving DecidableEq, Repr

/-- Environment input to one `read_data` call: the two measurement queries
and the `SYSTem:ERRor?` query (`none` = that query raised `VisaIOError`,
which `read_data` ignores). -/
structure TickRead where
  measV : QueryRes
  measA : QueryRes
  errQuery : Option String
deriving DecidableEq, Repr

/-- Python `needle in hay` substring test. -/
def containsSub (hay needle : String) : Bool :=
  (List.range (hay.data.length + 1)).any fun i =>
    needle.data.isPrefixOf (hay.data.drop i)

/-- `PowerSupplyInterface.disconnect` as it affects the interface flags
(it also best-effort writes `OUTP OFF` to the transport and closes it). -/
def psuDisconnect (psu : Psu) : Psu :=
  { psu with is_connected := false, output_on := false }

structure ReadResult where
  V : ℚ
  A : ℚ
  status : String
  psu : Psu
deriving DecidableEq, Repr

/-- `PowerSupplyInterface.read_data`.  `V`/`A` start at `0.0`; a
`VisaIOError` on either measurement query triggers the comms-error status
and a full `disconnect()`; a `ValueError` only downgrades the status; the
error-register query can add an `ALERT` status. -/
def read_data (psu : Psu) (r : TickRead) : ReadResult :=
  if !psu.is_connected then ⟨0, 0, "NOT CONNECTED", psu⟩
  else if !psu.output_on then ⟨0, 0, "OUTPUT OFF (Connected)", psu⟩
  else
    match r.measV with
    | .visaErr => ⟨0, 0, "COMMS ERROR - PSU OFFLINE", psuDisconnect psu⟩
    | .valueErr => ⟨0, 0, "MEASUREMENT READ FAIL", psu⟩
    | .val v =>
      match r.measA with
      | .visaErr => ⟨v, 0, "COMMS ERROR - PSU OFFLINE", psuDisconnect psu⟩
      | .valueErr => ⟨v, 0, "MEASUREMENT READ FAIL", psu⟩
      | .val a =>
        match r.errQuery with
        | none => ⟨v, a, "PLATING ACTIVE", psu⟩
        | some es =>
          if containsSub es "No error" then ⟨v, a, "PLATING ACTIVE", psu⟩
          else ⟨v, a, "ALERT: PSU Error (" ++ es ++ ")", psu⟩

/-! ### gui.py — `ElectroplatingControllerApp`

The mutable attributes of the application object that belong to the process
state machine, including the enabled/disabled flags of the four control
buttons (which encode the Connected/Active/Paused/Complete-equivalent UI
state).  Pure display widgets (labels, progress-bar value, modals) are not
part of the state.  Each handler returns the successor state together with
the list of `send_command` calls it performed. -/

structure AppState where
  target_thickness_um : ℚ
  target_area_cm2 : ℚ
  complexity : Int
  current_readout_V : ℚ
  current_readout_A : ℚ
  status_message : String
  progress_percent : Int
  time_elapsed_sec : Int
  is_plating_active : Bool
  target_current_A : ℚ
  target_voltage_V : ℚ
  estimated_time_sec : ℚ
  psu : Psu
  monitoring_scheduled : Bool
  start_btn_disabled : Bool
  pause_btn_disabled : Bool
  abort_btn_disabled : Bool
  connect_btn_disabled : Bool
deriving DecidableEq, Repr

/-- `update_calculations`: recompute the three targets from the current
parameters and refresh the start-button gate. -/
def update_calculations (s : AppState) : AppState :=
  let m := calculate_metrics s.target_thickness_um s.target_area_cm2 s.complexity
  { s with
    target_current_A := m.target_current_A
    target_voltage_V := m.target_voltage_V
    estimated_time_sec := m.estimated_time_sec
    start_btn_disabled :=
      !s.psu.is_connected || decide (m.estimated_time_sec ≤ 0) ||
        s.is_plating_active }

/-- A parameter-edit event.  For the two text inputs, `none` models text
that `float()` rejects; the handlers also reject non-positive values.  An
invalid entry shows a modal and reverts the widget text, leaving the
process state untouched. -/
inductive EditEvent where
  | thickness (text : Option ℚ)
  | area (text : Option ℚ)
  | complexity (value : Int)
deriving DecidableEq, Repr

/-- `on_thickness_input` / `on_area_input` / `on_complexity_change`. -/
def apply_edit (s : AppState) : EditEvent → AppState × List Cmd
  | .thickness t =>
    match t with
    | some val =>
      if val ≤ 0 then (s, [])
      else (update_calculations { s with target_thickness_um := val }, [])
    | none => (s, [])
  | .area t =>
    match t with
    | some val =>
      if val ≤ 0 then (s, [])
      else (update_calculations { s with target_area_cm2 := val }, [])
    | none => (s, [])
  | .complexity v => (update_calculations { s with complexity := v }, [])

/-- `start_process` (also the resume path: the RESUME button is wired to
the same handler).  Guard, `APPLY`, `OUTP ON`, then activation —
note it unconditionally resets `time_elapsed_sec` to `0`. -/
def start_process (s : AppState) : AppState × List Cmd :=
  if !s.psu.is_connected || decide (s.estimated_time_sec ≤ 0) then (s, [])
  else
    let applyCmd := Cmd.apply s.target_voltage_V s.target_current_A
    let r1 := send_cmd s.psu applyCmd
    if !r1.1 then
      ({ s with status_message := "ERROR: Failed to set parameters." }, [applyCmd])
    else
      let r2 := send_cmd r1.2 .outpOn
      if r2.1 then
        ({ s with
            psu := r2.2
            is_plating_active := true
            time_elapsed_sec := 0
            progress_percent := 0
            monitoring_scheduled := true
            status_message := "PLATING ACTIVE"
            start_btn_disabled := true
            pause_btn_disabled := false
            abort_btn_disabled := false
            connect_btn_disabled := true }, [applyCmd, .outpOn])
      else
        ({ s with
            psu := r2.2
            status_message := "ERROR: Failed to turn output ON." },
          [applyCmd, .outpOn])

/-- `on_pause_plating`. -/
def on_pause_plating (s : AppState) : AppState × List Cmd :=
  if s.is_plating_active then
    let r := send_cmd s.psu .outpOff
    ({ s with
        psu := r.2
        is_plating_active := false
        monitoring_scheduled := false
        status_message :=
          "PAUSED (Elapsed: " ++ format_time (s.time_elapsed_sec : ℚ) ++ ")"
        start_btn_disabled := false
        pause_btn_disabled := true
        abort_btn_disabled := false
        connect_btn_disabled := true }, [.outpOff])
  else (s, [])

/-- `_execute_abort`: cancel the monitoring event, best-effort `OUTP OFF`
(the boolean result is discarded), zero the bookkeeping, restore the
Connected-state button pattern. -/
def execute_abort (s : AppState) : AppState × List Cmd :=
  let r := send_cmd s.psu .outpOff
  ({ s with
      psu := r.2
      monitoring_scheduled := false
      is_plating_active := false
      time_elapsed_sec := 0
      progress_percent := 0
      status_message := "ABORTED. Resetting."
      start_btn_disabled := false
      pause_btn_disabled := true
      abort_btn_disabled := true
      connect_btn_disabled := false
      current_readout_V := 0
      current_readout_A := 0 }, [.outpOff])

/-- `live_monitor`, one scheduled tick.  Guard on `is_plating_active`;
read a sample (which may disconnect the PSU interface on comms failure);
advance elapsed time by the 1-second period; recompute progress with
Python `int()` truncation; on `elapsed ≥ estimated` cancel the event, send
`OUTP OFF` and enter the Complete-state button pattern.  The `ALERT`
substring check only opens a modal and changes no state. -/
def live_monitor (s : AppState) (r : TickRead) : AppState × List Cmd :=
  if !s.is_plating_active then (s, [])
  else
    let d := read_data s.psu r
    let elapsed := s.time_elapsed_sec + 1
    let progress : Int :=
      if 0 < s.estimated_time_sec then
        min 100 (ratTrunc ((elapsed : ℚ) / s.estimated_time_sec * 100))
      else 0
    if s.estimated_time_sec ≤ (elapsed : ℚ) then
      let r2 := send_cmd d.psu .outpOff
      ({ s with
          current_readout_V := d.V
          current_readout_A := d.A
          psu := r2.2
          time_elapsed_sec := elapsed
          progress_percent := progress
          monitoring_scheduled := false
          is_plating_active := false
          status_message := "PLATING COMPLETE"
          start_btn_disabled := true
          pause_btn_disabled := true
          abort_btn_disabled := true
          connect_btn_disabled := false }, [.outpOff])
    else
      ({ s with
          current_readout_V := d.V
          current_readout_A := d.A
          psu := d.psu
          time_elapsed_sec := elapsed
          progress_percent := progress }, [])

/-! ### Statement helpers and concrete fixtures -/

/-- The command shape that `send_command`'s dispatch accepts, on the
already-stripped-and-upper-cased command: `OUTP ON`, `OUTP OFF`, or an
`APPLY`-prefixed string with exactly three whitespace-separated parts whose
last two parse as floats. -/
def validCmdStr (c : String) : Bool :=
  c = "OUTP ON" || c = "OUTP OFF" ||
    (pyStartsWith c "APPLY" &&
      match pySplit c with
      | [_, p1, p2] => parsePyFloat p1 && parsePyFloat p2
      | _ => false)

/-- The §3 invariant: the three stored targets equal `calculate_metrics`
applied to the stored process parameters. -/
def targetsConsistent (s : AppState) : Prop :=
  s.target_current_A =
    (calculate_metrics s.target_thickness_um s.target_area_cm2
      s.complexity).target_current_A ∧
  s.target_voltage_V =
    (calculate_metrics s.target_thickness_um s.target_area_cm2
      s.complexity).target_voltage_V ∧
  s.estimated_time_sec =
    (calculate_metrics s.target_thickness_um s.target_area_cm2
      s.complexity).estimated_time_sec

def psuLive : Psu := ⟨true, true⟩

/-- The state `build()` initialises (gui.py lines 43-59, 197-211). -/
def initState : AppState :=
  { target_thickness_um := 10
    target_area_cm2 := 50
    complexity := 1
    current_readout_V := 0
    current_readout_A := 0
    status_message := "NOT CONNECTED"
    progress_percent := 0
    time_elapsed_sec := 0
    is_plating_active := false
    target_current_A := 0
    target_voltage_V := 0
    estimated_time_sec := 0
    psu := ⟨false, false⟩
    monitoring_scheduled := false
    start_btn_disabled := true
    pause_btn_disabled := true
    abort_btn_disabled := true
    connect_btn_disabled := false }

/-- A plating-in-progress state: output on, monitoring scheduled, a 10 s
estimated run with no elapsed time yet. -/
def activeState : AppState :=
  { initState with
      status_message := "PLATING ACTIVE"
      is_plating_active := true
      target_current_A := 3/20
      target_voltage_V := 14/5
      estimated_time_sec := 10
      psu := psuLive
      monitoring_scheduled := true
      start_btn_disabled := true
      pause_btn_disabled := false
      abort_btn_disabled := false
      connect_btn_disabled := true }

/-- `activeState` one tick before its completion boundary. -/
def nearDoneState : AppState := { activeState with time_elapsed_sec := 9 }

/-- `activeState` with a 3 s estimate, exercising progress truncation. -/
def shortRunState : AppState := { activeState with estimated_time_sec := 3 }

/-- The state `on_pause_plating` leaves after 5 elapsed seconds of
`activeState`'s run. -/
def pausedState : AppState :=
  { activeState with
      is_plating_active := false
      monitoring_scheduled := false
      time_elapsed_sec := 5
      psu := ⟨true, false⟩
      status_message := "PAUSED (Elapsed: 00:00:05)"
      start_btn_disabled := false
      pause_btn_disabled := true }

/-- Connected, idle, with the zero-sentinel targets. -/
def zeroTargetState : AppState :=
  { initState with psu := ⟨true, false⟩, status_message := "CONNECTED (Ready to Apply)" }

/-- A tick whose first measurement query raises `VisaIOError`. -/
def commsTick : TickRead := ⟨.visaErr, .val 0, some "No error"⟩

/-- A healthy tick: both measurements read, no device error. -/
def okTick : TickRead := ⟨.val 5, .val (3/20), some "No error"⟩

/-! ### Helper lemmas -/

lemma density_default : (CURRENT_DENSITY_MAP 1).getD 0 = 5.0 := by
  norm_num [CURRENT_DENSITY_MAP]

lemma density_getD_pos (c : Int) : 0 < (CURRENT_DENSITY_MAP c).getD 5.0 := by
  unfold CURRENT_DENSITY_MAP
  split_ifs <;> norm_num

/-- On a non-zero area the calculator takes its normal path: the current
from the (defaulted) density lookup, the voltage from the raw complexity
level, and the Faraday-law time with a non-zero denominator. -/
lemma calculate_metrics_eval (t a : ℚ) (c : Int) (ha : a ≠ 0) :
    calculate_metrics t a c =
      { target_current_A := (CURRENT_DENSITY_MAP c).getD 5.0 / 1000 * a
        target_voltage_V := 2.0 * (1 + ((c : ℚ) - 1) * 0.2)
        estimated_time_sec :=
          t / 10000 * a * DENSITY_G_CM3 * CHARGE_VALENCE * F /
            (MOLAR_MASS_G_MOL * ((CURRENT_DENSITY_MAP c).getD 5.0 / 1000 * a) *
              CURRENT_EFFICIENCY) } := by
  have hd := density_getD_pos c
  have hcur : (CURRENT_DENSITY_MAP c).getD 5.0 / 1000 * a ≠ 0 :=
    mul_ne_zero (div_ne_zero (ne_of_gt hd) (by norm_num)) ha
  have hden : MOLAR_MASS_G_MOL * ((CURRENT_DENSITY_MAP c).getD 5.0 / 1000 * a) *
      CURRENT_EFFICIENCY ≠ 0 :=
    mul_ne_zero (mul_ne_zero (by norm_num [MOLAR_MASS_G_MOL]) hcur)
      (by norm_num [CURRENT_EFFICIENCY])
  simp only [calculate_metrics, density_default]
  rw [if_neg hden]

lemma live_monitor_not_active (s : AppState) (r : TickRead)
    (h : s.is_plating_active = false) : live_monitor s r = (s, []) := by
  simp [live_monitor, h]

/-- Evaluation of a tick that reaches the completion branch. -/
lemma live_monitor_complete (s : AppState) (r : TickRead)
    (ha : s.is_plating_active = true)
    (hle : s.estimated_time_sec ≤ ((s.time_elapsed_sec + 1 : Int) : ℚ)) :
    live_monitor s r =
      ({ s with
          current_readout_V := (read_data s.psu r).V
          current_readout_A := (read_data s.psu r).A
          psu := (send_cmd (read_data s.psu r).psu .outpOff).2
          time_elapsed_sec := s.time_elapsed_sec + 1
          progress_percent :=
            if 0 < s.estimated_time_sec then
              min 100 (ratTrunc (((s.time_elapsed_sec + 1 : Int) : ℚ) /
                s.estimated_time_sec * 100))
            else 0
          monitoring_scheduled := false
          is_plating_active := false
          status_message := "PLATING COMPLETE"
          start_btn_disabled := true
          pause_btn_disabled := true
          abort_btn_disabled := true
          connect_btn_disabled := false }, [.outpOff]) := by
  simp only [live_monitor, ha, Bool.not_true, Bool.false_eq_true, if_false]
  rw [if_pos hle]

/-- Evaluation of a tick that does not reach the completion boundary. -/
lemma live_monitor_step (s : AppState) (r : TickRead)
    (ha : s.is_plating_active = true)
    (hlt : ¬ s.estimated_time_sec ≤ ((s.time_elapsed_sec + 1 : Int) : ℚ)) :
    live_monitor s r =
      ({ s with
          current_readout_V := (read_data s.psu r).V
          current_readout_A := (read_data s.psu r).A
          psu := (read_data s.psu r).psu
          time_elapsed_sec := s.time_elapsed_sec + 1
          progress_percent :=
            if 0 < s.estimated_time_sec then
              min 100 (ratTrunc (((s.time_elapsed_sec + 1 : Int) : ℚ) /
                s.estimated_time_sec * 100))
            else 0 }, []) := by
  simp only [live_monitor, ha, Bool.not_true, Bool.false_eq_true, if_false]
  rw [if_neg hlt]

lemma ratTrunc_nonneg (q : ℚ) (h : 0 ≤ q) : 0 ≤ ratTrunc q := by
  rw [ratTrunc, if_neg (not_lt.mpr h)]
  exact Int.floor_nonneg.mpr h

lemma update_calculations_consistent (s : AppState) :
    targetsConsistent (update_calculations s) := ⟨rfl, rfl, rfl⟩

/-! ### Claims -/

/-- Claim C1, counterexample: in an Active state whose tick read yields the
comms-failure token `COMMS ERROR - PSU OFFLINE`, the Controller does NOT
force a Disconnected-equivalent state and does NOT stop the Monitoring
Loop — after the tick `is_plating_active` is still `true` and the
monitoring event is still scheduled, refuting the claim at this input. -/
theorem comms_error_tick_stays_active_cex :
    (read_data activeState.psu commsTick).status = "COMMS ERROR - PSU OFFLINE" ∧
    (live_monitor activeState commsTick).1.is_plating_active = true ∧
    (live_monitor activeState commsTick).1.monitoring_scheduled = true ∧
    (live_monitor activeState commsTick).2 = [] := by
  norm_num [live_monitor, read_data, activeState, initState, psuLive, commsTick,
    psuDisconnect, ratTrunc]

/-- Claim C1, amended: when a monitoring tick's device read raises a
communication failure (so `read_data` returns the comms token), the device
interface has already forced itself disconnected with output off, but the
Controller does not react: it stays Active, the monitoring event stays
scheduled, elapsed time still advances, and the tick issues no device
command — further ticks keep firing against the now-disconnected
interface. -/
theorem comms_error_tick_behavior (s : AppState) (r : TickRead)
    (ha : s.is_plating_active = true)
    (hpsu : s.psu = ⟨true, true⟩)
    (hcomms : r.measV = .visaErr ∨ ∃ v, r.measV = .val v ∧ r.measA = .visaErr)
    (hlt : ¬ s.estimated_time_sec ≤ ((s.time_elapsed_sec + 1 : Int) : ℚ)) :
    (read_data s.psu r).status = "COMMS ERROR - PSU OFFLINE" ∧
    (live_monitor s r).1.psu = ⟨false, false⟩ ∧
    (live_monitor s r).1.is_plating_active = true ∧
    (live_monitor s r).1.monitoring_scheduled = s.monitoring_scheduled ∧
    (live_monitor s r).1.time_elapsed_sec = s.time_elapsed_sec + 1 ∧
    (live_monitor s r).2 = [] := by
  have hrd : (read_data s.psu r).status = "COMMS ERROR - PSU OFFLINE" ∧
      (read_data s.psu r).psu = ⟨false, false⟩ := by
    rcases hcomms with hv | ⟨v, hv, hA⟩
    · rw [hpsu]
      constructor
      · simp [read_data, hv, psuDisconnect]
      · simp [read_data, hv, psuDisconnect]
    · rw [hpsu]
      constructor
      · simp [read_data, hv, hA, psuDisconnect]
      · simp [read_data, hv, hA, psuDisconnect]
  rw [live_monitor_step s r ha hlt]
  exact ⟨hrd.1, hrd.2, ha, rfl, rfl, rfl⟩

/-- Witness for `comms_error_tick_behavior` at `activeState`, `commsTick`. -/
theorem comms_error_tick_behavior_witness :
    activeState.is_plating_active = true ∧
    activeState.psu = ⟨true, true⟩ ∧
    (commsTick.measV = QueryRes.visaErr ∨
      ∃ v, commsTick.measV = QueryRes.val v ∧
        commsTick.measA = QueryRes.visaErr) ∧
    ¬ activeState.estimated_time_sec ≤
      ((activeState.time_elapsed_sec + 1 : Int) : ℚ) ∧
    ((read_data activeState.psu commsTick).status =
        "COMMS ERROR - PSU OFFLINE" ∧
      (live_monitor activeState commsTick).1.psu = ⟨false, false⟩ ∧
      (live_monitor activeState commsTick).1.is_plating_active = true ∧
      (live_monitor activeState commsTick).1.monitoring_scheduled =
        activeState.monitoring_scheduled ∧
      (live_monitor activeState commsTick).1.time_elapsed_sec =
        activeState.time_elapsed_sec + 1 ∧
      (live_monitor activeState commsTick).2 = []) := by
  have h1 : activeState.is_plating_active = true := rfl
  have h2 : activeState.psu = ⟨true, true⟩ := rfl
  have h3 : commsTick.measV = QueryRes.visaErr ∨
      ∃ v, commsTick.measV = QueryRes.val v ∧
        commsTick.measA = QueryRes.visaErr := Or.inl rfl
  have h4 : ¬ activeState.estimated_time_sec ≤
      ((activeState.time_elapsed_sec + 1 : Int) : ℚ) := by
    norm_num [activeState, initState]
  exact ⟨h1, h2, h3, h4, comms_error_tick_behavior activeState commsTick h1 h2 h3 h4⟩

/-- Claim C2: the claim (and the spec's resume row) says resuming from
Paused keeps `elapsed_sec` unchanged.  Evaluating `start_process` — the
handler the RESUME button invokes — on a Paused state with 5 s elapsed and
valid targets: it does re-send the setpoint and enable-output commands and
restarts the Monitoring Loop, but it resets `time_elapsed_sec` from 5 to
0, contradicting the claim (and the handler's own confirmation dialog,
which displays `est - elapsed` as the remaining time). -/
theorem resume_resets_elapsed_eval :
    pausedState.time_elapsed_sec = 5 ∧
    pausedState.is_plating_active = false ∧
    (start_process pausedState).1.is_plating_active = true ∧
    (start_process pausedState).1.monitoring_scheduled = true ∧
    (start_process pausedState).2 = [Cmd.apply (14/5) (3/20), Cmd.outpOn] ∧
    (start_process pausedState).1.time_elapsed_sec = 0 := by
  have hs : start_process pausedState =
      ({ pausedState with
          psu := ⟨true, true⟩
          is_plating_active := true
          time_elapsed_sec := 0
          progress_percent := 0
          monitoring_scheduled := true
          status_message := "PLATING ACTIVE"
          start_btn_disabled := true
          pause_btn_disabled := false
          abort_btn_disabled := false
          connect_btn_disabled := true },
        [Cmd.apply (14/5) (3/20), Cmd.outpOn]) := by
    norm_num [start_process, pausedState, activeState, initState, send_cmd, psuLive]
  rw [hs]
  exact ⟨rfl, rfl, rfl, rfl, rfl, rfl⟩

/-- Claim C3: `calculate_metrics` with `area_cm2 = 0` returns the all-zero
result for every thickness and complexity level (the division by zero is
caught internally), and with zero-sentinel targets
(`estimated_time_sec ≤ 0`) `start_process` returns unchanged without
sending any device command. -/
theorem zero_area_zeros_and_start_rejected :
    (∀ (t : ℚ) (c : Int),
      calculate_metrics t 0 c =
        { target_current_A := 0, target_voltage_V := 0,
          estimated_time_sec := 0 }) ∧
    (∀ s : AppState, s.estimated_time_sec ≤ 0 → start_process s = (s, [])) := by
  constructor
  · intro t c
    simp [calculate_metrics]
  · intro s h
    rw [start_process, if_pos]
    simp [h]

/-- Witness for `zero_area_zeros_and_start_rejected` at thickness 10,
complexity 3, and the connected zero-target state. -/
theorem zero_area_zeros_and_start_rejected_witness :
    calculate_metrics 10 0 3 =
      { target_current_A := 0, target_voltage_V := 0,
        estimated_time_sec := 0 } ∧
    zeroTargetState.estimated_time_sec ≤ 0 ∧
    start_process zeroTargetState = (zeroTargetState, []) := by
  have h : zeroTargetState.estimated_time_sec ≤ 0 := by
    norm_num [zeroTargetState, initState]
  exact ⟨zero_area_zeros_and_start_rejected.1 10 3, h,
    zero_area_zeros_and_start_rejected.2 zeroTargetState h⟩

/-- Claim C4: on the tick where `elapsed_sec` reaches (exactly)
`estimated_time_sec`, the Controller leaves Active for Complete with
`progress_percent = 100`, issues exactly one disable-output command, stops
the monitoring event, and any further tick is a no-op. -/
theorem completion_boundary (s : AppState) (r r2 : TickRead)
    (ha : s.is_plating_active = true)
    (hpos : 0 < s.estimated_time_sec)
    (hreach : ((s.time_elapsed_sec + 1 : Int) : ℚ) = s.estimated_time_sec) :
    (live_monitor s r).1.is_plating_active = false ∧
    (live_monitor s r).1.monitoring_scheduled = false ∧
    (live_monitor s r).1.progress_percent = 100 ∧
    (live_monitor s r).1.status_message = "PLATING COMPLETE" ∧
    (live_monitor s r).2 = [Cmd.outpOff] ∧
    live_monitor (live_monitor s r).1 r2 = ((live_monitor s r).1, []) := by
  have hle : s.estimated_time_sec ≤ ((s.time_elapsed_sec + 1 : Int) : ℚ) :=
    le_of_eq hreach.symm
  rw [live_monitor_complete s r ha hle]
  have hprog : (if 0 < s.estimated_time_sec then
      min 100 (ratTrunc (((s.time_elapsed_sec + 1 : Int) : ℚ) /
        s.estimated_time_sec * 100)) else 0) = 100 := by
    rw [if_pos hpos, hreach, div_self (ne_of_gt hpos), one_mul]
    norm_num [ratTrunc]
  refine ⟨rfl, rfl, hprog, rfl, rfl, ?_⟩
  exact live_monitor_not_active _ r2 rfl

/-- Witness for `completion_boundary` at `nearDoneState` (9 s elapsed of a
10 s run) with healthy ticks. -/
theorem completion_boundary_witness :
    nearDoneState.is_plating_active = true ∧
    0 < nearDoneState.estimated_time_sec ∧
    ((nearDoneState.time_elapsed_sec + 1 : Int) : ℚ) =
      nearDoneState.estimated_time_sec ∧
    ((live_monitor nearDoneState okTick).1.is_plating_active = false ∧
      (live_monitor nearDoneState okTick).1.monitoring_scheduled = false ∧
      (live_monitor nearDoneState okTick).1.progress_percent = 100 ∧
      (live_monitor nearDoneState okTick).1.status_message =
        "PLATING COMPLETE" ∧
      (live_monitor nearDoneState okTick).2 = [Cmd.outpOff] ∧
      live_monitor (live_monitor nearDoneState okTick).1 okTick =
        ((live_monitor nearDoneState okTick).1, [])) := by
  have h1 : nearDoneState.is_plating_active = true := rfl
  have h2 : 0 < nearDoneState.estimated_time_sec := by
    norm_num [nearDoneState, activeState, initState]
  have h3 : ((nearDoneState.time_elapsed_sec + 1 : Int) : ℚ) =
      nearDoneState.estimated_time_sec := by
    norm_num [nearDoneState, activeState, initState]
  exact ⟨h1, h2, h3, completion_boundary nearDoneState okTick okTick h1 h2 h3⟩

/-- Claim C5: from any state (Active or Paused, any prior elapsed time,
even a disconnected interface — the command's failure is discarded),
`_execute_abort` zeroes `elapsed_sec` and `progress_percent`, issues
exactly one disable-output command, cancels the monitoring event, and
restores the Connected-state button pattern (START enabled, PAUSE and
ABORT disabled, CONNECT enabled). -/
theorem abort_resets_and_disables_output (s : AppState) :
    (execute_abort s).1.time_elapsed_sec = 0 ∧
    (execute_abort s).1.progress_percent = 0 ∧
    (execute_abort s).2 = [Cmd.outpOff] ∧
    (execute_abort s).1.is_plating_active = false ∧
    (execute_abort s).1.monitoring_scheduled = false ∧
    (execute_abort s).1.start_btn_disabled = false ∧
    (execute_abort s).1.pause_btn_disabled = true ∧
    (execute_abort s).1.abort_btn_disabled = true ∧
    (execute_abort s).1.connect_btn_disabled = false :=
  ⟨rfl, rfl, rfl, rfl, rfl, rfl, rfl, rfl, rfl⟩

/-- Claim C6: for a non-zero area, any complexity level outside {1..5}
falls back to the level-1 current density (5.0 mA/cm²) for the current and
time results, while the voltage factor still uses the raw out-of-range
level; levels inside {1..5} use the table
{1: 5.0, 2: 4.0, 3: 3.0, 4: 2.5, 5: 2.0}. -/
theorem density_fallback_voltage_raw (t a : ℚ) (c : Int) (ha : a ≠ 0) :
    (¬(1 ≤ c ∧ c ≤ 5) →
      (calculate_metrics t a c).target_current_A = 5.0 / 1000 * a ∧
      (calculate_metrics t a c).estimated_time_sec =
        (calculate_metrics t a 1).estimated_time_sec ∧
      (calculate_metrics t a c).target_voltage_V =
        2.0 * (1 + ((c : ℚ) - 1) * 0.2)) ∧
    ((c = 1 → (calculate_metrics t a c).target_current_A = 5.0 / 1000 * a) ∧
     (c = 2 → (calculate_metrics t a c).target_current_A = 4.0 / 1000 * a) ∧
     (c = 3 → (calculate_metrics t a c).target_current_A = 3.0 / 1000 * a) ∧
     (c = 4 → (calculate_metrics t a c).target_current_A = 2.5 / 1000 * a) ∧
     (c = 5 → (calculate_metrics t a c).target_current_A = 2.0 / 1000 * a)) := by
  constructor
  · intro hc
    have h1 : c ≠ 1 := by omega
    have h2 : c ≠ 2 := by omega
    have h3 : c ≠ 3 := by omega
    have h4 : c ≠ 4 := by omega
    have h5 : c ≠ 5 := by omega
    have hmap : CURRENT_DENSITY_MAP c = none := by
      simp [CURRENT_DENSITY_MAP, h1, h2, h3, h4, h5]
    have hmap1 : CURRENT_DENSITY_MAP 1 = some 5.0 := by
      norm_num [CURRENT_DENSITY_MAP]
    rw [calculate_metrics_eval t a c ha, calculate_metrics_eval t a 1 ha,
      hmap, hmap1]
    norm_num
  · refine ⟨?_, ?_, ?_, ?_, ?_⟩ <;> intro hc <;> subst hc <;>
      rw [calculate_metrics_eval t a _ ha] <;> norm_num [CURRENT_DENSITY_MAP]

/-- Witness for `density_fallback_voltage_raw` at the out-of-range level 7
with area 50. -/
theorem density_fallback_voltage_raw_witness :
    (50 : ℚ) ≠ 0 ∧
    ¬(1 ≤ (7 : Int) ∧ (7 : Int) ≤ 5) ∧
    ((calculate_metrics 10 50 7).target_current_A = 5.0 / 1000 * 50 ∧
      (calculate_metrics 10 50 7).estimated_time_sec =
        (calculate_metrics 10 50 1).estimated_time_sec ∧
      (calculate_metrics 10 50 7).target_voltage_V =
        2.0 * (1 + (((7 : Int) : ℚ) - 1) * 0.2)) := by
  refine ⟨by norm_num, by omega, ?_⟩
  exact (density_fallback_voltage_raw 10 50 7 (by norm_num)).1 (by omega)

/-- Claim C7: `calculate_metrics(10.0, 50.0, 3)` yields a 0.15 A current,
2.8 V, and an estimated time within 0.01 s of 4513.92 s, and `format_time`
renders that duration as `"01:15:13"`. -/
theorem example_metrics_values :
    (calculate_metrics 10 50 3).target_current_A = 0.15 ∧
    (calculate_metrics 10 50 3).target_voltage_V = 2.8 ∧
    |(calculate_metrics 10 50 3).estimated_time_sec - 4513.92| < 0.01 ∧
    format_time (calculate_metrics 10 50 3).estimated_time_sec = "01:15:13" := by
  have h : calculate_metrics 10 50 3 =
      { target_current_A := 3/20, target_voltage_V := 14/5,
        estimated_time_sec := 771880/171 } := by
    norm_num [calculate_metrics, CURRENT_DENSITY_MAP, MOLAR_MASS_G_MOL,
      DENSITY_G_CM3, CHARGE_VALENCE, CURRENT_EFFICIENCY, F]
  rw [h]
  refine ⟨by norm_num, by norm_num, ?_, ?_⟩
  · rw [abs_sub_lt_iff]
    constructor <;> norm_num
  · have ht : ratTrunc ((771880 : ℚ)/171) = 4513 := by norm_num [ratTrunc]
    simp only [format_time, ht]
    decide

/-- Claim C8, counterexample: progress is NOT exactly
`min(100, elapsed/estimated*100)` — `live_monitor` truncates the ratio with
`int()`.  With a 3 s estimate, after the first tick the stored progress is
33 while the claimed formula gives 100/3. -/
theorem progress_truncation_cex :
    (live_monitor shortRunState okTick).1.time_elapsed_sec = 1 ∧
    (live_monitor shortRunState okTick).1.progress_percent = 33 ∧
    ((live_monitor shortRunState okTick).1.progress_percent : ℚ) ≠
      min 100 (((live_monitor shortRunState okTick).1.time_elapsed_sec : ℚ) /
        shortRunState.estimated_time_sec * 100) := by
  have h : (live_monitor shortRunState okTick).1.time_elapsed_sec = 1 ∧
      (live_monitor shortRunState okTick).1.progress_percent = 33 := by
    norm_num [live_monitor, read_data, shortRunState, activeState, initState,
      psuLive, okTick, ratTrunc, containsSub]
  refine ⟨h.1, h.2, ?_⟩
  rw [h.1, h.2]
  norm_num [shortRunState, activeState, initState, min_def]

/-- Claim C8, amended: on every tick processed in Active (with a positive
estimate and non-negative elapsed time), `elapsed_sec` advances by the
1-second tick period and `progress_percent` is recomputed as
`min(100, int(elapsed/estimated*100))` — the ratio truncated to an integer
before clamping — which always lies in [0, 100]. -/
theorem progress_truncated_formula (s : AppState) (r : TickRead)
    (ha : s.is_plating_active = true)
    (hpos : 0 < s.estimated_time_sec)
    (hnn : 0 ≤ s.time_elapsed_sec) :
    (live_monitor s r).1.time_elapsed_sec = s.time_elapsed_sec + 1 ∧
    (live_monitor s r).1.progress_percent =
      min 100 (ratTrunc (((s.time_elapsed_sec + 1 : Int) : ℚ) /
        s.estimated_time_sec * 100)) ∧
    0 ≤ (live_monitor s r).1.progress_percent ∧
    (live_monitor s r).1.progress_percent ≤ 100 := by
  have hq : (0 : ℚ) ≤ ((s.time_elapsed_sec + 1 : Int) : ℚ) /
      s.estimated_time_sec * 100 := by
    apply mul_nonneg _ (by norm_num)
    apply div_nonneg _ (le_of_lt hpos)
    exact_mod_cast Int.add_nonneg hnn (by norm_num)
  have hfields : (live_monitor s r).1.time_elapsed_sec =
      s.time_elapsed_sec + 1 ∧
      (live_monitor s r).1.progress_percent =
        min 100 (ratTrunc (((s.time_elapsed_sec + 1 : Int) : ℚ) /
          s.estimated_time_sec * 100)) := by
    by_cases hc : s.estimated_time_sec ≤ ((s.time_elapsed_sec + 1 : Int) : ℚ)
    · rw [live_monitor_complete s r ha hc]
      exact ⟨rfl, if_pos hpos⟩
    · rw [live_monitor_step s r ha hc]
      exact ⟨rfl, if_pos hpos⟩
  refine ⟨hfields.1, hfields.2, ?_, ?_⟩
  · rw [hfields.2]
    exact le_min (by norm_num) (ratTrunc_nonneg _ hq)
  · rw [hfields.2]
    exact min_le_left _ _

/-- Witness for `progress_truncated_formula` at `shortRunState`, `okTick`. -/
theorem progress_truncated_formula_witness :
    shortRunState.is_plating_active = true ∧
    0 < shortRunState.estimated_time_sec ∧
    0 ≤ shortRunState.time_elapsed_sec ∧
    ((live_monitor shortRunState okTick).1.time_elapsed_sec =
        shortRunState.time_elapsed_sec + 1 ∧
      (live_monitor shortRunState okTick).1.progress_percent =
        min 100 (ratTrunc (((shortRunState.time_elapsed_sec + 1 : Int) : ℚ) /
          shortRunState.estimated_time_sec * 100)) ∧
      0 ≤ (live_monitor shortRunState okTick).1.progress_percent ∧
      (live_monitor shortRunState okTick).1.progress_percent ≤ 100) := by
  have h1 : shortRunState.is_plating_active = true := rfl
  have h2 : 0 < shortRunState.estimated_time_sec := by
    norm_num [shortRunState, activeState, initState]
  have h3 : 0 ≤ shortRunState.time_elapsed_sec := by
    norm_num [shortRunState, activeState, initState]
  exact ⟨h1, h2, h3, progress_truncated_formula shortRunState okTick h1 h2 h3⟩

/-- Claim C9: every parameter-edit event, in any state, re-establishes the
invariant that the stored targets equal `calculate_metrics` of the stored
parameters (recomputation is synchronous in the edit handler), issues no
device command, and repeating the same edit leaves the targets
unchanged. -/
theorem edit_recomputes_targets (s : AppState) (e : EditEvent)
    (h : targetsConsistent s) :
    targetsConsistent (apply_edit s e).1 ∧
    (apply_edit s e).2 = [] ∧
    (apply_edit (apply_edit s e).1 e).1.target_current_A =
      (apply_edit s e).1.target_current_A ∧
    (apply_edit (apply_edit s e).1 e).1.target_voltage_V =
      (apply_edit s e).1.target_voltage_V ∧
    (apply_edit (apply_edit s e).1 e).1.estimated_time_sec =
      (apply_edit s e).1.estimated_time_sec := by
  cases e with
  | thickness t =>
    cases t with
    | none => exact ⟨h, rfl, rfl, rfl, rfl⟩
    | some val =>
      by_cases hv : val ≤ 0
      · refine ⟨?_, ?_, ?_, ?_, ?_⟩ <;> simp only [apply_edit, if_pos hv]
        exact h
      · refine ⟨?_, ?_, ?_, ?_, ?_⟩ <;>
          simp only [apply_edit, if_neg hv] <;>
          first | exact update_calculations_consistent _ | rfl
  | area t =>
    cases t with
    | none => exact ⟨h, rfl, rfl, rfl, rfl⟩
    | some val =>
      by_cases hv : val ≤ 0
      · refine ⟨?_, ?_, ?_, ?_, ?_⟩ <;> simp only [apply_edit, if_pos hv]
        exact h
      · refine ⟨?_, ?_, ?_, ?_, ?_⟩ <;>
          simp only [apply_edit, if_neg hv] <;>
          first | exact update_calculations_consistent _ | rfl
  | complexity v =>
    exact ⟨update_calculations_consistent _, rfl, rfl, rfl, rfl⟩

/-- Witness for `edit_recomputes_targets`: the freshly built state (whose
`build()` ends in `update_calculations`) with a thickness edit to 20. -/
theorem edit_recomputes_targets_witness :
    targetsConsistent (update_calculations initState) ∧
    (targetsConsistent
        (apply_edit (update_calculations initState)
          (EditEvent.thickness (some 20))).1 ∧
      (apply_edit (update_calculations initState)
        (EditEvent.thickness (some 20))).2 = [] ∧
      (apply_edit
          (apply_edit (update_calculations initState)
            (EditEvent.thickness (some 20))).1
          (EditEvent.thickness (some 20))).1.target_current_A =
        (apply_edit (update_calculations initState)
          (EditEvent.thickness (some 20))).1.target_current_A ∧
      (apply_edit
          (apply_edit (update_calculations initState)
            (EditEvent.thickness (some 20))).1
          (EditEvent.thickness (some 20))).1.target_voltage_V =
        (apply_edit (update_calculations initState)
          (EditEvent.thickness (some 20))).1.target_voltage_V ∧
      (apply_edit
          (apply_edit (update_calculations initState)
            (EditEvent.thickness (some 20))).1
          (EditEvent.thickness (some 20))).1.estimated_time_sec =
        (apply_edit (update_calculations initState)
          (EditEvent.thickness (some 20))).1.estimated_time_sec) :=
  ⟨update_calculations_consistent initState,
    edit_recomputes_targets (update_calculations initState)
      (EditEvent.thickness (some 20))
      (update_calculations_consistent initState)⟩

/-- Claim C10: `send_command` returns `false` with no transport write when
the interface is not connected; when connected, it returns `true` exactly
for the commands that, after stripping and upper-casing, are `OUTP ON`,
`OUTP OFF`, or `APPLY`-prefixed with exactly three whitespace-separated
parts whose last two parse as floats — everything else (e.g. `APPLY 5`,
`APPLY a b`) yields `false`, never an exception. -/
theorem send_command_contract (psu : Psu) (cmd : String) :
    (psu.is_connected = false → send_command psu cmd = (false, psu, [])) ∧
    (psu.is_connected = true →
      (send_command psu cmd).1 = validCmdStr (pyUpper (pyStrip cmd))) := by
  constructor
  · intro h
    simp [send_command, h]
  · intro h
    simp only [send_command, h, Bool.not_true, Bool.false_eq_true, if_false]
    by_cases hA : pyStartsWith (pyUpper (pyStrip cmd)) "APPLY" = true
    · have hon : ¬ (pyUpper (pyStrip cmd)) = "OUTP ON" := by
        intro he
        rw [he] at hA
        exact absurd hA (by decide)
      have hoff : ¬ (pyUpper (pyStrip cmd)) = "OUTP OFF" := by
        intro he
        rw [he] at hA
        exact absurd hA (by decide)
      rw [if_pos hA]
      simp only [validCmdStr, hA, decide_eq_false hon, decide_eq_false hoff,
        Bool.false_or, Bool.true_and]
      rcases hs : pySplit (pyUpper (pyStrip cmd)) with
        _ | ⟨p0, _ | ⟨p1, _ | ⟨p2, _ | rest⟩⟩⟩
      · rfl
      · rfl
      · rfl
      · cases hp : (parsePyFloat p1 && parsePyFloat p2) <;> simp [hp]
      · rfl
    · have hA2 : pyStartsWith (pyUpper (pyStrip cmd)) "APPLY" = false :=
        (Bool.not_eq_true _).mp hA
      rw [if_neg hA]
      by_cases hon : (pyUpper (pyStrip cmd)) = "OUTP ON"
      · rw [if_pos hon]
        simp [validCmdStr, hon]
      · rw [if_neg hon]
        by_cases hoff : (pyUpper (pyStrip cmd)) = "OUTP OFF"
        · rw [if_pos hoff]
          simp [validCmdStr, hoff]
        · rw [if_neg hoff]
          simp [validCmdStr, hon, hoff, hA2]

/-- Witness for `send_command_contract`: disconnected `OUTP ON` is refused
with no write; connected `APPLY 5` (two parts) and `apply a b` (unparsable
floats) return `false`; connected `apply 2.8 0.15` returns `true`. -/
theorem send_command_contract_witness :
    ((⟨false, false⟩ : Psu).is_connected = false ∧
      send_command ⟨false, false⟩ "OUTP ON" = (false, ⟨false, false⟩, [])) ∧
    ((⟨true, true⟩ : Psu).is_connected = true ∧
      (send_command ⟨true, true⟩ "APPLY 5").1 = false ∧
      (send_command ⟨true, true⟩ "apply a b").1 = false ∧
      (send_command ⟨true, true⟩ "apply 2.8 0.15").1 = true) := by
  refine ⟨⟨rfl, (send_command_contract ⟨false, false⟩ "OUTP ON").1 rfl⟩,
    rfl, ?_, ?_, ?_⟩
  · rw [(send_command_contract ⟨true, true⟩ "APPLY 5").2 rfl]
    decide
  · rw [(send_command_contract ⟨true, true⟩ "apply a b").2 rfl]
    decide
  · rw [(send_command_contract ⟨true, true⟩ "apply 2.8 0.15").2 rfl]
    decide

end Electroplating
